import Mathlib

/-!
Shallow embedding of the Lockdown vault background script
(`src/background.js`, second `LockdownBackground` class revision, lines
513-1424, which is the revision the specification describes; the first
revision, lines 1-511, supplies the legacy v1.1 encryption scheme).

Cryptographic primitives (PBKDF2, Argon2id, AES-GCM) are modelled
symbolically: a derived key is the tuple of derivation inputs that
`crypto.subtle.deriveKey` / `argon2.hash` receive, and AES-GCM is an ideal
AEAD whose ciphertext carries the key, the IV and the plaintext, and whose
decryption succeeds exactly when key and IV match (a tag mismatch —
wrong key or wrong IV — yields `none`, modelling the thrown
`OperationError`).  `JSON.stringify`/`JSON.parse` round-tripping of the
vault record is absorbed into the model: the ideal ciphertext carries the
vault value itself.  Randomness (`crypto.getRandomValues`) is an explicit
byte stream consumed by each encryption call.
-/

namespace Lockdown

/-- Byte strings (`Uint8Array` contents, stored as plain arrays). -/
abbrev Bytes := List Nat

/-- JS truthiness of a possibly-absent string field: `undefined`, `null`
and the empty string are falsy. -/
def strTruthy : Option String → Bool
  | none => false
  | some s => !s.isEmpty

/-- JS string coercion applied to a possibly-`null` value (as
`TextEncoder.encode` would coerce `null` to the string "null"). -/
def jsStr : Option String → String
  | none => "null"
  | some s => s

/-- Does the character list begin with the pattern?  (helper for the
model of `String.prototype.includes`). -/
def leadsWith : List Char → List Char → Bool
  | _, [] => true
  | [], _ :: _ => false
  | a :: as, b :: bs => a == b && leadsWith as bs

/-- Does the character list contain the pattern as a contiguous run? -/
def containsSeq (l pat : List Char) : Bool :=
  match l with
  | [] => pat.isEmpty
  | _ :: tl => leadsWith l pat || containsSeq tl pat

/-- Model of `s.includes(pat)` on JS strings. -/
def jsIncludes (s pat : String) : Bool :=
  containsSeq s.toList pat.toList

/-- Model of `s.toLowerCase()`. -/
def jsToLowerCase (s : String) : String :=
  s.map Char.toLower

/-- A credential object.  All fields a JS credential object may carry;
absent (`undefined`) fields are `none`.  `created`/`modified` are epoch
milliseconds. -/
structure Credential where
  id : Option String := none
  name : Option String := none
  domain : Option String := none
  username : Option String := none
  password : Option String := none
  url : Option String := none
  email : Option String := none
  created : Option Nat := none
  modified : Option Nat := none
deriving DecidableEq, Repr

/-- The decrypted vault payload (`vaultData` in `setupVault`): the
credential collection plus metadata.  v1.1 vaults have no `security`
field. -/
structure VaultData where
  credentials : List Credential
  created : Nat
  version : String
  security : Option String := none
deriving DecidableEq, Repr

/-- A derived symmetric key, identified symbolically by the exact inputs
handed to the key-derivation primitive. -/
inductive DerivedKey where
  /-- PBKDF2 with SHA-256 at the given iteration count
  (`crypto.subtle.deriveKey` with `hash: SHA-256`).  `iterations` is
  `none` when the JS code would pass `undefined` (missing `kdfParams`). -/
  | pbkdf2 (password : String) (salt : Bytes) (iterations : Option Nat)
  /-- Argon2id at the given cost parameters (`argon2.hash`). -/
  | argon2id (password : String) (salt : Bytes) (time : Option Nat)
      (mem : Option Nat) (parallelism : Option Nat) (hashLen : Option Nat)
deriving DecidableEq, Repr

/-- An ideal AES-GCM ciphertext: symbolically records the key, the IV and
the plaintext vault value. -/
structure CipherText where
  key : DerivedKey
  iv : Bytes
  plaintext : VaultData
deriving DecidableEq, Repr

/-- Ideal `crypto.subtle.encrypt({name: AES-GCM, iv}, key, data)`. -/
def aesGcmEncrypt (key : DerivedKey) (iv : Bytes) (data : VaultData) : CipherText :=
  ⟨key, iv, data⟩

/-- Ideal `crypto.subtle.decrypt`: succeeds exactly when the key and IV
match those used at encryption; otherwise the GCM tag check fails and the
call throws (`none`). -/
def aesGcmDecrypt (key : DerivedKey) (iv : Bytes) (ct : CipherText) : Option VaultData :=
  if ct.key = key ∧ ct.iv = iv then some ct.plaintext else none

/-- Per-algorithm KDF parameters recorded in an envelope (`kdfParams`). -/
inductive KdfParams where
  | pbkdf2 (iterations : Nat)
  | argon2 (time : Nat) (memory : Nat) (parallelism : Nat) (hashLen : Nat)
deriving DecidableEq, Repr

/-- The persisted envelope: the object written to
`chrome.storage.local.set({vault: ...})`.  Legacy v1.1 envelopes carry
`kdf = none` and `kdfParams = none`. -/
structure Envelope where
  encrypted : CipherText
  salt : Bytes
  iv : Bytes
  version : String
  kdf : Option String := none
  kdfParams : Option KdfParams := none
deriving DecidableEq, Repr

/-- Argon2id cost parameters held by the background session
(`this.argon2Params`). -/
structure Argon2Params where
  time : Nat := 2
  mem : Nat := 32 * 1024
  hashLen : Nat := 32
  parallelism : Nat := 1
deriving DecidableEq, Repr

/-- The background session's transient state (the fields of the
`LockdownBackground` instance).  `autoLockTimer` is `true` when a
countdown is armed; `autoLockDelay = none` models the `null` delay set by
configuring "never". -/
structure Session where
  vault : Option VaultData := none
  isUnlocked : Bool := false
  masterPassword : Option String := none
  autoLockTimer : Bool := false
  autoLockDelay : Option Nat := some (5 * 60 * 1000)
  unlockTime : Option Nat := none
  argon2Loaded : Bool := false
  argon2Params : Argon2Params := {}
deriving DecidableEq, Repr

/-- Persistent extension storage (`chrome.storage.local`). -/
structure Storage where
  vault : Option Envelope := none
  setupCompleted : Bool := false
  autoLockDelay : Option Nat := none
deriving DecidableEq, Repr

/-- The ambient environment of one handler invocation: the clock
(`Date.now()`), the CSPRNG byte stream (`crypto.getRandomValues`), the
base36 suffix `Math.random().toString(36).substr(2, 9)` used for
credential ids, and whether the Argon2 WASM primitive works at runtime
(its failure triggers the catch-and-fall-back path in
`encryptDataWithArgon2`). -/
structure Env where
  now : Nat := 0
  rng : List Nat := []
  idSuffix : String := ""
  argon2Works : Bool := true
deriving DecidableEq, Repr

/-- Responses returned to `sendResponse`, one constructor per response
object shape used by the background handlers. -/
inductive Response where
  | ok
  | okSecurity (security : String)
  | okVault (vault : VaultData)
  | okCredential (credential : Credential) (security : String)
  | credentials (credentials : List Credential)
  | err (msg : String)
  | status (isUnlocked : Bool) (hasVault : Bool) (unlockTime : Option Nat)
      (autoLockDelay : Option Nat) (credentialCount : Nat)
      (securityLevel : String) (argon2Available : Bool)
  | securityStatus (argon2Available : Bool) (currentSecurity : String)
      (isUnlocked : Bool) (hasVault : Bool) (credentialCount : Nat)
  | password (password : String)
  | remainingNull
  | remaining (remaining : Nat) (remainingMinutes : Nat)
      (remainingSeconds : Nat) (totalSeconds : Nat)
deriving DecidableEq, Repr

/-- `encryptDataWithEnhancedPBKDF2(data, password)`
(src/background.js:935-987): draws a fresh 32-byte salt and a fresh
12-byte IV from the RNG, derives the key by PBKDF2/SHA-256 at 250000
iterations, AES-GCM encrypts, and records `kdf: enhanced-pbkdf2` with the
iteration count in the envelope.  Returns the envelope and the remaining
RNG stream. -/
def encryptDataWithEnhancedPBKDF2 (data : VaultData) (password : String)
    (rng : List Nat) : Envelope × List Nat :=
  let salt := rng.take 32
  let rng1 := rng.drop 32
  let iterations := 250000
  let key := DerivedKey.pbkdf2 password salt (some iterations)
  let iv := rng1.take 12
  let rng2 := rng1.drop 12
  let ct := aesGcmEncrypt key iv data
  (⟨ct, salt, iv, "2.0", some "enhanced-pbkdf2", some (.pbkdf2 iterations)⟩, rng2)

/-- `encryptDataWithArgon2(data, password)` (src/background.js:843-933):
draws a fresh 32-byte salt, derives the key by Argon2id with the
session's cost parameters, draws a fresh 12-byte IV, AES-GCM encrypts,
and records `kdf: argon2id` plus the parameters.  If the Argon2 primitive
fails at runtime (`argon2Works = false`), the catch block falls back to
`encryptDataWithEnhancedPBKDF2` on the remaining RNG stream (the 32 bytes
already drawn for the Argon2 salt are consumed either way). -/
def encryptDataWithArgon2 (argon2Works : Bool) (params : Argon2Params)
    (data : VaultData) (password : String) (rng : List Nat) : Envelope × List Nat :=
  let salt := rng.take 32
  let rng1 := rng.drop 32
  if argon2Works then
    let key := DerivedKey.argon2id password salt (some params.time)
      (some params.mem) (some params.parallelism) (some params.hashLen)
    let iv := rng1.take 12
    let rng2 := rng1.drop 12
    let ct := aesGcmEncrypt key iv data
    (⟨ct, salt, iv, "2.0", some "argon2id",
      some (.argon2 params.time params.mem params.parallelism params.hashLen)⟩, rng2)
  else
    encryptDataWithEnhancedPBKDF2 data password rng1

/-- `encryptData(data, password)` (src/background.js:833-841): dispatch
on `this.argon2Loaded` between the Argon2id path and the enhanced-PBKDF2
fallback. -/
def encryptData (argon2Loaded argon2Works : Bool) (params : Argon2Params)
    (data : VaultData) (password : String) (rng : List Nat) : Envelope × List Nat :=
  if argon2Loaded then
    encryptDataWithArgon2 argon2Works params data password rng
  else
    encryptDataWithEnhancedPBKDF2 data password rng

/-- `decryptDataWithEnhancedPBKDF2(encryptedObj, password)`
(src/background.js:1075-1112): rederives the PBKDF2/SHA-256 key from the
envelope's salt and `kdfParams.iterations` and AES-GCM decrypts.  When
`kdfParams` is absent or of the Argon2 shape, `params.iterations` is
`undefined` in JS, so the derived key records `none` iterations. -/
def decryptDataWithEnhancedPBKDF2 (e : Envelope) (password : String) :
    Option VaultData :=
  let iterations : Option Nat :=
    match e.kdfParams with
    | some (.pbkdf2 its) => some its
    | _ => none
  let key := DerivedKey.pbkdf2 password e.salt iterations
  aesGcmDecrypt key e.iv e.encrypted

/-- `decryptDataWithArgon2(encryptedObj, password)`
(src/background.js:1006-1073): throws (`none`) when the Argon2 library is
not loaded; otherwise rederives the Argon2id key from the envelope's salt
and recorded parameters and AES-GCM decrypts.  Missing parameter fields
are `undefined` in JS and recorded as `none`. -/
def decryptDataWithArgon2 (argon2Loaded : Bool) (e : Envelope)
    (password : String) : Option VaultData :=
  if argon2Loaded then
    let key :=
      match e.kdfParams with
      | some (.argon2 time memory parallelism hashLen) =>
          DerivedKey.argon2id password e.salt (some time) (some memory)
            (some parallelism) (some hashLen)
      | _ => DerivedKey.argon2id password e.salt none none none none
    aesGcmDecrypt key e.iv e.encrypted
  else
    none

/-- `decryptDataLegacy(encryptedObj, password)`
(src/background.js:1114-1151): PBKDF2/SHA-256 at the fixed historical
100000 iterations over the envelope's salt, then AES-GCM decrypt. -/
def decryptDataLegacy (e : Envelope) (password : String) : Option VaultData :=
  aesGcmDecrypt (DerivedKey.pbkdf2 password e.salt (some 100000)) e.iv e.encrypted

/-- `decryptVault(encryptedObj, password)` (src/background.js:990-1004):
dispatch on the envelope's `kdf` tag; every envelope not tagged
`argon2id` or `enhanced-pbkdf2` (in particular one lacking the tag) goes
to the legacy decryptor. -/
def decryptVault (argon2Loaded : Bool) (e : Envelope) (password : String) :
    Option VaultData :=
  if e.kdf = some "argon2id" then
    decryptDataWithArgon2 argon2Loaded e password
  else if e.kdf = some "enhanced-pbkdf2" then
    decryptDataWithEnhancedPBKDF2 e password
  else
    decryptDataLegacy e password

/-- `encryptData(data, password)` of the first (v1.1) background-script
revision (src/background.js:426-468): the historical scheme producing
legacy envelopes — 16-byte salt, PBKDF2/SHA-256 at 100000 iterations,
12-byte IV, version tag 1.1 and no `kdf` field. -/
def encryptDataV11 (data : VaultData) (password : String) (rng : List Nat) :
    Envelope × List Nat :=
  let salt := rng.take 16
  let rng1 := rng.drop 16
  let key := DerivedKey.pbkdf2 password salt (some 100000)
  let iv := rng1.take 12
  let rng2 := rng1.drop 12
  let ct := aesGcmEncrypt key iv data
  (⟨ct, salt, iv, "1.1", none, none⟩, rng2)

/-- Model of the platform's `new URL(url).hostname` for absolute URLs:
the run between the scheme terminator and the first slash, with any port
stripped; `none` when the string has no scheme (the constructor throws). -/
def urlHostname (url : String) : Option String :=
  match url.splitOn "://" with
  | _scheme :: rest :: _ =>
    let hostPort := ((rest.splitOn "/").headD "")
    let host := ((hostPort.splitOn ":").headD "")
    if host.isEmpty then none else some host
  | _ => none

/-- The sort key `b.modified || b.created` used by every listing
operation, with absent fields contributing 0. -/
def recencyKey (c : Credential) : Nat :=
  match c.modified with
  | some m => if m = 0 then c.created.getD 0 else m
  | none => c.created.getD 0

/-- Stable insertion into a list kept in descending `key` order. -/
def insertDesc (key : Credential → Nat) (c : Credential) :
    List Credential → List Credential
  | [] => [c]
  | d :: ds => if key d < key c then c :: d :: ds else d :: insertDesc key c ds

/-- Model of `credentials.sort((a, b) => (b.modified || b.created) -
(a.modified || a.created))`: a stable descending sort by `recencyKey`. -/
def sortDesc (key : Credential → Nat) : List Credential → List Credential
  | [] => []
  | c :: cs => insertDesc key c (sortDesc key cs)

/-- `startAutoLockTimer()` (src/background.js:1393-1407): cancels any
armed timer; when the configured delay is falsy (`null` or 0) it returns
with no timer armed, otherwise it records `unlockTime = Date.now()` and
arms the countdown. -/
def startAutoLockTimer (s : Session) (now : Nat) : Session :=
  let s1 := { s with autoLockTimer := false }
  match s1.autoLockDelay with
  | some d => if d = 0 then s1 else { s1 with unlockTime := some now, autoLockTimer := true }
  | none => s1

/-- `setupVault(masterPassword)` (src/background.js:767-801): builds a
fresh empty vault record, encrypts it with the best available scheme,
writes the envelope to storage (unconditionally — there is no check for
an existing envelope), moves the session to unlocked and arms the
countdown. -/
def setupVault (s : Session) (st : Storage) (env : Env)
    (masterPassword : String) : Session × Storage × Response :=
  let security := if s.argon2Loaded then "argon2id" else "enhanced-pbkdf2"
  let vaultData : VaultData := ⟨[], env.now, "2.0", some security⟩
  let encrypted := (encryptData s.argon2Loaded env.argon2Works s.argon2Params
    vaultData masterPassword env.rng).1
  let st' := { st with vault := some encrypted, setupCompleted := true }
  let s' := startAutoLockTimer
    { s with
      vault := some vaultData
      masterPassword := some masterPassword
      isUnlocked := true } env.now
  (s', st', .okSecurity security)

/-- `unlockVault(masterPassword)` (src/background.js:803-831): reads the
stored envelope (`No vault found` when absent), decrypts it via
`decryptVault`; on success holds the vault, records the password, moves
to unlocked and arms the countdown; on any decryption failure the catch
block answers `Invalid password` and the session is untouched. -/
def unlockVault (s : Session) (st : Storage) (env : Env)
    (masterPassword : String) : Session × Storage × Response :=
  match st.vault with
  | none => (s, st, .err "No vault found")
  | some e =>
    match decryptVault s.argon2Loaded e masterPassword with
    | none => (s, st, .err "Invalid password")
    | some vaultData =>
      let s' := startAutoLockTimer
        { s with
          vault := some vaultData
          masterPassword := some masterPassword
          isUnlocked := true } env.now
      (s', st, .okVault vaultData)

/-- `lockVault()` (src/background.js:1259-1272): drops the vault and
master password, clears `isUnlocked` and `unlockTime`, cancels the timer,
and always answers success. -/
def lockVault (s : Session) : Session × Response :=
  ({ s with
     vault := none
     masterPassword := none
     isUnlocked := false
     unlockTime := none
     autoLockTimer := false }, .ok)

/-- `getStatus()` (src/background.js:1246-1256). -/
def getStatus (s : Session) : Response :=
  .status s.isUnlocked s.vault.isSome s.unlockTime s.autoLockDelay
    (match s.vault with | some v => v.credentials.length | none => 0)
    (if s.argon2Loaded then "argon2id" else "enhanced-pbkdf2")
    s.argon2Loaded

/-- `getSecurityStatus()` (src/background.js:1236-1244). -/
def getSecurityStatus (s : Session) : Response :=
  .securityStatus s.argon2Loaded
    (if s.argon2Loaded then "argon2id" else "enhanced-pbkdf2")
    s.isUnlocked s.vault.isSome
    (match s.vault with | some v => v.credentials.length | none => 0)

/-- `saveCredential(credential)` (src/background.js:1153-1189): guarded
by `!this.isUnlocked || !this.vault`; assigns a fresh id from the clock
plus a random base36 suffix, stamps `created`/`modified` with the current
time, derives `domain` from the URL host when absent, appends to the
vault, re-encrypts and persists. -/
def saveCredential (s : Session) (st : Storage) (env : Env)
    (credential : Credential) : Session × Storage × Response :=
  match s.isUnlocked, s.vault with
  | true, some v =>
    let cred := { credential with
      id := some (toString env.now ++ env.idSuffix),
      created := some env.now, modified := some env.now }
    let cred :=
      if !strTruthy cred.domain && strTruthy cred.url then
        match urlHostname (jsStr cred.url) with
        | some h => { cred with domain := some h }
        | none => cred
      else cred
    let v' := { v with credentials := v.credentials ++ [cred] }
    let encrypted := (encryptData s.argon2Loaded env.argon2Works s.argon2Params
      v' (jsStr s.masterPassword) env.rng).1
    ({ s with vault := some v' }, { st with vault := some encrypted },
      .okCredential cred (encrypted.kdf.getD "legacy"))
  | _, _ => (s, st, .err "Vault is locked")

/-- `deleteCredential(credentialId)` (src/background.js:1191-1210):
guarded by the lock check; `Credential not found` when no credential has
the id; otherwise splices it out, re-encrypts and persists. -/
def deleteCredential (s : Session) (st : Storage) (env : Env)
    (credentialId : String) : Session × Storage × Response :=
  match s.isUnlocked, s.vault with
  | true, some v =>
    match v.credentials.findIdx? (fun cred => cred.id == some credentialId) with
    | none => (s, st, .err "Credential not found")
    | some index =>
      let v' := { v with credentials := v.credentials.eraseIdx index }
      let encrypted := (encryptData s.argon2Loaded env.argon2Works s.argon2Params
        v' (jsStr s.masterPassword) env.rng).1
      ({ s with vault := some v' }, { st with vault := some encrypted }, .ok)
  | _, _ => (s, st, .err "Vault is locked")

/-- `updateCredential(credential)` (src/background.js:1212-1234): guarded
by the lock check; `Credential not found` when no stored credential has
the supplied id; otherwise stamps `modified = Date.now()` on the supplied
object and stores it at the found index — replacing the previous
credential wholesale — then re-encrypts and persists. -/
def updateCredential (s : Session) (st : Storage) (env : Env)
    (credential : Credential) : Session × Storage × Response :=
  match s.isUnlocked, s.vault with
  | true, some v =>
    match v.credentials.findIdx? (fun cred => cred.id == credential.id) with
    | none => (s, st, .err "Credential not found")
    | some index =>
      let cred := { credential with modified := some env.now }
      let v' := { v with credentials := v.credentials.set index cred }
      let encrypted := (encryptData s.argon2Loaded env.argon2Works s.argon2Params
        v' (jsStr s.masterPassword) env.rng).1
      ({ s with vault := some v' }, { st with vault := some encrypted }, .ok)
  | _, _ => (s, st, .err "Vault is locked")

/-- The three-way domain match of `getCredentials`
(src/background.js:1279-1283): exact domain equality, or the URL contains
the query as a substring, or the name contains it case-insensitively. -/
def domainMatch (domain : String) (c : Credential) : Bool :=
  c.domain == some domain ||
  (strTruthy c.url && jsIncludes (jsStr c.url) domain) ||
  (strTruthy c.name &&
    jsIncludes (jsToLowerCase (jsStr c.name)) (jsToLowerCase domain))

/-- `getCredentials(domain)` (src/background.js:1274-1287): empty list
when not unlocked; otherwise the three-way-OR filter sorted by recency. -/
def getCredentials (s : Session) (domain : String) : Response :=
  match s.isUnlocked, s.vault with
  | true, some v =>
    .credentials (sortDesc recencyKey (v.credentials.filter (domainMatch domain)))
  | _, _ => .credentials []

/-- `getAllCredentials()` (src/background.js:1289-1297): empty list when
not unlocked; otherwise a recency-sorted copy of the collection. -/
def getAllCredentials (s : Session) : Response :=
  match s.isUnlocked, s.vault with
  | true, some v => .credentials (sortDesc recencyKey v.credentials)
  | _, _ => .credentials []

/-- `searchCredentials(query)` (src/background.js:1299-1315): empty list
when not unlocked or the query is falsy; otherwise a case-insensitive
substring match on name, domain, username and email. -/
def searchCredentials (s : Session) (query : String) : Response :=
  match s.isUnlocked, s.vault with
  | true, some v =>
    if query.isEmpty then .credentials []
    else
      let searchTerm := jsToLowerCase query
      .credentials (sortDesc recencyKey (v.credentials.filter (fun c =>
        (strTruthy c.name && jsIncludes (jsToLowerCase (jsStr c.name)) searchTerm) ||
        (strTruthy c.domain && jsIncludes (jsToLowerCase (jsStr c.domain)) searchTerm) ||
        (strTruthy c.username && jsIncludes (jsToLowerCase (jsStr c.username)) searchTerm) ||
        (strTruthy c.email && jsIncludes (jsToLowerCase (jsStr c.email)) searchTerm))))
  | _, _ => .credentials []

/-- Character pick `charset.charAt(Math.floor(Math.random() * len))`,
with the random draw supplied as a byte taken modulo the charset size. -/
def pickChar (charset : String) (draw : Nat) : Char :=
  charset.toList.getD (draw % charset.length) 'a'

/-- `generatePassword(length, includeSymbols)`
(src/background.js:1317-1343): one character from each required class,
then charset picks up to the requested length.  The final
`sort(() => Math.random() - 0.5)` shuffle applies an unspecified
permutation; it is modelled as the identity permutation. -/
def generatePassword (length : Nat) (includeSymbols : Bool)
    (draws : List Nat) : String :=
  let charset := "abcdefghijklmnopqrstuvwxyzABCDEFGHIJKLMNOPQRSTUVWXYZ0123456789"
    ++ (if includeSymbols then "!@#$%^&*" else "")
  let mandatory :=
    [pickChar "abcdefghijklmnopqrstuvwxyz" (draws.getD 0 0),
     pickChar "ABCDEFGHIJKLMNOPQRSTUVWXYZ" (draws.getD 1 0),
     pickChar "0123456789" (draws.getD 2 0)]
    ++ (if includeSymbols then [pickChar "!@#$%^&*" (draws.getD 3 0)] else [])
  let rest := (List.range (length - mandatory.length)).map
    (fun i => pickChar charset (draws.getD (i + 4) 0))
  String.mk (mandatory ++ rest)

/-- `updateAutoLock(delay)` (src/background.js:1345-1356): `never` clears
the delay, a number sets it; the value is persisted, and when unlocked
the countdown is restarted. -/
def updateAutoLock (s : Session) (st : Storage) (env : Env)
    (delay : Option Nat) : Session × Storage × Response :=
  let s1 := { s with autoLockDelay := delay }
  let st' := { st with autoLockDelay := delay }
  let s2 := if s1.isUnlocked then startAutoLockTimer s1 env.now else s1
  (s2, st', .ok)

/-- `getRemainingTime()` (src/background.js:1358-1375): `remaining: null`
when not unlocked or `unlockTime`/`autoLockDelay` is falsy; otherwise the
clamped-at-zero remainder of the countdown. -/
def getRemainingTime (s : Session) (now : Nat) : Response :=
  match s.isUnlocked, s.unlockTime, s.autoLockDelay with
  | true, some ut, some d =>
    if ut = 0 ∨ d = 0 then .remainingNull
    else
      let elapsed := now - ut
      let remainingMs := d - elapsed
      let totalSeconds := remainingMs / 1000
      .remaining remainingMs (totalSeconds / 60) (totalSeconds % 60) totalSeconds
  | _, _, _ => .remainingNull

/-- Messages accepted by `handleMessage` (src/background.js:715-764),
one constructor per `message.type`; `unknown` models the default branch
whose thrown error is returned by the listener's catch. -/
inductive Msg where
  | setupVault (masterPassword : String)
  | unlockVault (masterPassword : String)
  | lockVault
  | getStatus
  | saveCredential (credential : Credential)
  | getCredentials (domain : String)
  | deleteCredential (credentialId : String)
  | updateCredential (credential : Credential)
  | generatePassword (length : Option Nat) (symbols : Bool)
  | updateAutoLock (delay : Option Nat)
  | getRemainingTime
  | openPopup
  | getAllCredentials
  | searchCredentials (query : String)
  | getSecurityStatus
  | unknown (t : String)
deriving DecidableEq, Repr

/-- `message.length || 32`: a missing or zero length falls back to 32. -/
def jsLengthOr32 : Option Nat → Nat
  | some n => if n = 0 then 32 else n
  | none => 32

/-- `handleMessage(message)` (src/background.js:715-764): dispatch to the
handlers.  `OPEN_POPUP` only drives browser UI and leaves the session and
storage untouched. -/
def handleMessage (msg : Msg) (s : Session) (st : Storage) (env : Env) :
    Session × Storage × Response :=
  match msg with
  | .setupVault pw => setupVault s st env pw
  | .unlockVault pw => unlockVault s st env pw
  | .lockVault => ((lockVault s).1, st, (lockVault s).2)
  | .getStatus => (s, st, getStatus s)
  | .saveCredential c => saveCredential s st env c
  | .getCredentials d => (s, st, getCredentials s d)
  | .deleteCredential i => deleteCredential s st env i
  | .updateCredential c => updateCredential s st env c
  | .generatePassword len symbols =>
    (s, st, .password (generatePassword (jsLengthOr32 len) symbols env.rng))
  | .updateAutoLock d => updateAutoLock s st env d
  | .getRemainingTime => (s, st, getRemainingTime s env.now)
  | .openPopup => (s, st, .ok)
  | .getAllCredentials => (s, st, getAllCredentials s)
  | .searchCredentials q => (s, st, searchCredentials s q)
  | .getSecurityStatus => (s, st, getSecurityStatus s)
  | .unknown t => (s, st, .err ("Unknown message type: " ++ t))

/-- The session built by the constructor plus `init`/`loadSettings`
(src/background.js:516-559): everything empty and locked, with the
auto-lock delay taken from storage (falsy values fall back to five
minutes). -/
def initialSession (st : Storage) (argon2Loaded : Bool) : Session :=
  { vault := none, isUnlocked := false, masterPassword := none,
    autoLockTimer := false,
    autoLockDelay := some (match st.autoLockDelay with
      | some d => if d = 0 then 5 * 60 * 1000 else d
      | none => 5 * 60 * 1000),
    unlockTime := none, argon2Loaded := argon2Loaded, argon2Params := {} }

/-- The credential list carried by a `credentials` response (empty for
every other response shape). -/
def Response.credList : Response → List Credential
  | .credentials cs => cs
  | _ => []

/-- Coherence of the session fields: the session reports unlocked exactly
when it holds both a decrypted vault and the master password. -/
def coherent (s : Session) : Prop :=
  s.isUnlocked = true ↔ (s.vault ≠ none ∧ s.masterPassword ≠ none)

instance (s : Session) : Decidable (coherent s) := by
  unfold coherent; infer_instance

theorem mem_insertDesc (k : Credential → Nat) (c a : Credential)
    (l : List Credential) : a ∈ insertDesc k c l ↔ a = c ∨ a ∈ l := by
  induction l with
  | nil => simp [insertDesc]
  | cons d ds ih =>
    simp only [insertDesc]
    split
    · simp
    · simp [ih]; tauto

theorem mem_sortDesc (k : Credential → Nat) (a : Credential)
    (l : List Credential) : a ∈ sortDesc k l ↔ a ∈ l := by
  induction l with
  | nil => simp [sortDesc]
  | cons c cs ih => simp [sortDesc, mem_insertDesc, ih]

theorem startAutoLockTimer_vault (s : Session) (now : Nat) :
    (startAutoLockTimer s now).vault = s.vault := by
  unfold startAutoLockTimer
  cases s.autoLockDelay <;> simp
  split <;> rfl

theorem startAutoLockTimer_isUnlocked (s : Session) (now : Nat) :
    (startAutoLockTimer s now).isUnlocked = s.isUnlocked := by
  unfold startAutoLockTimer
  cases s.autoLockDelay <;> simp
  split <;> rfl

theorem startAutoLockTimer_masterPassword (s : Session) (now : Nat) :
    (startAutoLockTimer s now).masterPassword = s.masterPassword := by
  unfold startAutoLockTimer
  cases s.autoLockDelay <;> simp
  split <;> rfl

/-- C1: for every vault value V and passphrase P, decrypting with P the
envelope produced by encrypting V with P yields exactly V (ids and
timestamps included, since the whole record is recovered), shown on the
enhanced-PBKDF2 encrypt/decrypt pair, both directly and through the
`decryptVault` dispatcher. -/
theorem enhanced_pbkdf2_roundtrip (v : VaultData) (p : String) (rng : List Nat) :
    decryptDataWithEnhancedPBKDF2 (encryptDataWithEnhancedPBKDF2 v p rng).1 p
      = some v ∧
    ∀ argon2Loaded : Bool,
      decryptVault argon2Loaded (encryptDataWithEnhancedPBKDF2 v p rng).1 p
        = some v := by
  constructor <;>
    simp [encryptDataWithEnhancedPBKDF2, decryptDataWithEnhancedPBKDF2,
      decryptVault, aesGcmEncrypt, aesGcmDecrypt]

/-- C6: `lockVault` always answers success, leaves the session locked
with vault, master password and unlock time null and the timer
cancelled, and is idempotent: a second call produces exactly the same
session and response. -/
theorem lockVault_idempotent (s : Session) :
    (lockVault s).2 = Response.ok ∧
    (lockVault s).1.vault = none ∧
    (lockVault s).1.masterPassword = none ∧
    (lockVault s).1.isUnlocked = false ∧
    (lockVault s).1.unlockTime = none ∧
    (lockVault s).1.autoLockTimer = false ∧
    lockVault (lockVault s).1 = lockVault s := by
  simp [lockVault]

/-- C7: in every session that is not unlocked, the mutating operations
answer the `Vault is locked` error and leave session and storage
untouched, while the read-only operations answer an empty credentials
list. -/
theorem locked_state_operations (s : Session) (st : Storage) (env : Env)
    (c : Credential) (cid d q : String)
    (h : s.isUnlocked = false) :
    saveCredential s st env c = (s, st, .err "Vault is locked") ∧
    updateCredential s st env c = (s, st, .err "Vault is locked") ∧
    deleteCredential s st env cid = (s, st, .err "Vault is locked") ∧
    getCredentials s d = .credentials [] ∧
    getAllCredentials s = .credentials [] ∧
    searchCredentials s q = .credentials [] := by
  cases hv : s.vault <;>
    simp [saveCredential, updateCredential, deleteCredential,
      getCredentials, getAllCredentials, searchCredentials, h, hv]

/-- C7 witness at a concrete locked session. -/
theorem locked_state_operations_witness :
    saveCredential {} {} {} {} = ({}, {}, .err "Vault is locked") ∧
    updateCredential {} {} {} {} = ({}, {}, .err "Vault is locked") ∧
    deleteCredential {} {} {} "x" = ({}, {}, .err "Vault is locked") ∧
    getCredentials {} "gmail.com" = .credentials [] ∧
    getAllCredentials {} = .credentials [] ∧
    searchCredentials {} "mail" = .credentials [] :=
  locked_state_operations {} {} {} {} "x" "gmail.com" "mail" rfl

theorem decryptVault_wrong_password (b aL aW : Bool) (params : Argon2Params)
    (v : VaultData) (p1 p2 : String) (rng : List Nat) (h : p2 ≠ p1) :
    decryptVault b (encryptData aL aW params v p1 rng).1 p2 = none := by
  have h' : p1 ≠ p2 := Ne.symm h
  cases aL <;> cases aW <;> cases b <;>
    simp [encryptData, encryptDataWithArgon2, encryptDataWithEnhancedPBKDF2,
      decryptVault, decryptDataWithArgon2, decryptDataWithEnhancedPBKDF2,
      decryptDataLegacy, aesGcmEncrypt, aesGcmDecrypt, h, h']

/-- C2: for an envelope produced under passphrase P1 (on any
key-derivation path the encryptor selects) and any other passphrase P2,
the rederived key differs, AES-GCM tag verification fails
(`decryptVault` yields nothing), `unlockVault(P2)` answers
`Invalid password`, and a locked session stays locked with no vault
held. -/
theorem unlockVault_wrong_password (s : Session) (st : Storage) (env : Env)
    (v : VaultData) (p1 p2 : String) (aL aW : Bool) (params : Argon2Params)
    (rng : List Nat)
    (henv : st.vault = some (encryptData aL aW params v p1 rng).1)
    (hp : p2 ≠ p1)
    (hlocked : s.isUnlocked = false) (hvault : s.vault = none) :
    decryptVault s.argon2Loaded (encryptData aL aW params v p1 rng).1 p2 = none ∧
    unlockVault s st env p2 = (s, st, .err "Invalid password") ∧
    (unlockVault s st env p2).1.isUnlocked = false ∧
    (unlockVault s st env p2).1.vault = none := by
  have hd := decryptVault_wrong_password s.argon2Loaded aL aW params v p1 p2 rng hp
  refine ⟨hd, ?_, ?_, ?_⟩ <;> simp [unlockVault, henv, hd, hlocked, hvault]

/-- Sample vault value, envelope and storage for concrete witnesses. -/
def sampleVault : VaultData := ⟨[], 0, "2.0", some "enhanced-pbkdf2"⟩

/-- Sample enhanced-PBKDF2 envelope under passphrase "pw1". -/
def sampleEnvelope : Envelope :=
  (encryptData false true {} sampleVault "pw1" (List.range 44)).1

/-- Sample storage holding `sampleEnvelope`. -/
def sampleStorage : Storage := { vault := some sampleEnvelope }

/-- C2 witness: the concrete enhanced-PBKDF2 envelope under "pw1"
rejected under "pw2" from the initial locked session. -/
theorem unlockVault_wrong_password_witness :
    decryptVault (({} : Session)).argon2Loaded sampleEnvelope "pw2" = none ∧
    unlockVault {} sampleStorage {} "pw2"
      = ({}, sampleStorage, .err "Invalid password") ∧
    (unlockVault {} sampleStorage {} "pw2").1.isUnlocked = false ∧
    (unlockVault {} sampleStorage {} "pw2").1.vault = none :=
  unlockVault_wrong_password {} sampleStorage {} sampleVault "pw1" "pw2"
    false true {} (List.range 44) rfl (by decide) rfl rfl

/-- C4: every envelope lacking a `kdf` tag is dispatched by
`decryptVault` to the legacy decryptor, which is exactly PBKDF2/SHA-256
at the fixed 100000 iterations over the envelope's salt; consequently a
legacy envelope produced by the historical v1.1 `encryptData` under
passphrase P decrypts back to the original vault under the same P. -/
theorem legacy_envelope_decrypt (aL : Bool) (e : Envelope) (p : String)
    (v : VaultData) (rng : List Nat) (h : e.kdf = none) :
    decryptVault aL e p = decryptDataLegacy e p ∧
    decryptDataLegacy e p
      = aesGcmDecrypt (DerivedKey.pbkdf2 p e.salt (some 100000)) e.iv e.encrypted ∧
    (encryptDataV11 v p rng).1.kdf = none ∧
    decryptVault aL (encryptDataV11 v p rng).1 p = some v := by
  refine ⟨?_, rfl, rfl, ?_⟩ <;>
    simp [decryptVault, decryptDataLegacy, encryptDataV11, h,
      aesGcmEncrypt, aesGcmDecrypt]

/-- Sample legacy v1.1 envelope under passphrase "pw". -/
def sampleLegacyEnvelope : Envelope :=
  (encryptDataV11 ⟨[], 7, "1.1", none⟩ "pw" (List.range 28)).1

/-- C4 witness at a concrete tagless envelope and concrete legacy
round-trip. -/
theorem legacy_envelope_decrypt_witness :
    decryptVault false sampleLegacyEnvelope "pw"
      = decryptDataLegacy sampleLegacyEnvelope "pw" ∧
    decryptDataLegacy sampleLegacyEnvelope "pw"
      = aesGcmDecrypt (DerivedKey.pbkdf2 "pw" sampleLegacyEnvelope.salt (some 100000))
          sampleLegacyEnvelope.iv sampleLegacyEnvelope.encrypted ∧
    (encryptDataV11 ⟨[], 7, "1.1", none⟩ "pw" (List.range 28)).1.kdf = none ∧
    decryptVault false (encryptDataV11 ⟨[], 7, "1.1", none⟩ "pw" (List.range 28)).1 "pw"
      = some ⟨[], 7, "1.1", none⟩ :=
  legacy_envelope_decrypt false sampleLegacyEnvelope "pw" ⟨[], 7, "1.1", none⟩
    (List.range 28) rfl

/-- C5: each encryption call draws its salt and IV from the RNG stream
inside the call, so two encryptions of the same vault under the same
passphrase on runs whose RNG draws differ produce different salt,
different nonce and different ciphertext — on the enhanced-PBKDF2 path
and on the Argon2id path alike. -/
theorem encrypt_fresh_salt_nonce (v : VaultData) (p : String)
    (params : Argon2Params) (r1 r2 : List Nat)
    (hsalt : r1.take 32 ≠ r2.take 32)
    (hiv : (r1.drop 32).take 12 ≠ (r2.drop 32).take 12) :
    ((encryptDataWithEnhancedPBKDF2 v p r1).1.salt
        ≠ (encryptDataWithEnhancedPBKDF2 v p r2).1.salt ∧
      (encryptDataWithEnhancedPBKDF2 v p r1).1.iv
        ≠ (encryptDataWithEnhancedPBKDF2 v p r2).1.iv ∧
      (encryptDataWithEnhancedPBKDF2 v p r1).1.encrypted
        ≠ (encryptDataWithEnhancedPBKDF2 v p r2).1.encrypted) ∧
    ((encryptDataWithArgon2 true params v p r1).1.salt
        ≠ (encryptDataWithArgon2 true params v p r2).1.salt ∧
      (encryptDataWithArgon2 true params v p r1).1.iv
        ≠ (encryptDataWithArgon2 true params v p r2).1.iv ∧
      (encryptDataWithArgon2 true params v p r1).1.encrypted
        ≠ (encryptDataWithArgon2 true params v p r2).1.encrypted) := by
  simp [encryptDataWithEnhancedPBKDF2, encryptDataWithArgon2, aesGcmEncrypt,
    CipherText.mk.injEq, hsalt, hiv]

/-- C5 witness on two concrete RNG streams differing in every draw. -/
theorem encrypt_fresh_salt_nonce_witness :
    List.take 32 (List.replicate 44 0) ≠ List.take 32 (List.replicate 44 1) ∧
    ((encryptDataWithEnhancedPBKDF2 ⟨[], 0, "2.0", none⟩ "pw" (List.replicate 44 0)).1.salt
      ≠ (encryptDataWithEnhancedPBKDF2 ⟨[], 0, "2.0", none⟩ "pw" (List.replicate 44 1)).1.salt ∧
     (encryptDataWithEnhancedPBKDF2 ⟨[], 0, "2.0", none⟩ "pw" (List.replicate 44 0)).1.iv
      ≠ (encryptDataWithEnhancedPBKDF2 ⟨[], 0, "2.0", none⟩ "pw" (List.replicate 44 1)).1.iv ∧
     (encryptDataWithEnhancedPBKDF2 ⟨[], 0, "2.0", none⟩ "pw" (List.replicate 44 0)).1.encrypted
      ≠ (encryptDataWithEnhancedPBKDF2 ⟨[], 0, "2.0", none⟩ "pw" (List.replicate 44 1)).1.encrypted) ∧
    ((encryptDataWithArgon2 true {} ⟨[], 0, "2.0", none⟩ "pw" (List.replicate 44 0)).1.salt
      ≠ (encryptDataWithArgon2 true {} ⟨[], 0, "2.0", none⟩ "pw" (List.replicate 44 1)).1.salt ∧
     (encryptDataWithArgon2 true {} ⟨[], 0, "2.0", none⟩ "pw" (List.replicate 44 0)).1.iv
      ≠ (encryptDataWithArgon2 true {} ⟨[], 0, "2.0", none⟩ "pw" (List.replicate 44 1)).1.iv ∧
     (encryptDataWithArgon2 true {} ⟨[], 0, "2.0", none⟩ "pw" (List.replicate 44 0)).1.encrypted
      ≠ (encryptDataWithArgon2 true {} ⟨[], 0, "2.0", none⟩ "pw" (List.replicate 44 1)).1.encrypted) :=
  ⟨by decide,
    encrypt_fresh_salt_nonce ⟨[], 0, "2.0", none⟩ "pw" {}
      (List.replicate 44 0) (List.replicate 44 1) (by decide) (by decide)⟩

/-- C3 counterexample: with an envelope already in storage, `setupVault`
still answers success and replaces the stored envelope instead of
failing with `AlreadyInitialized`. -/
theorem setupVault_unguarded_cex :
    sampleStorage.vault = some sampleEnvelope ∧
    (setupVault {} sampleStorage {} "newpw").2.2
      = Response.okSecurity "enhanced-pbkdf2" ∧
    (setupVault {} sampleStorage {} "newpw").2.1.vault ≠ some sampleEnvelope := by
  refine ⟨rfl, rfl, ?_⟩
  decide

/-- C3 amended: `setupVault` performs no initialization check — from
every state, including one whose storage already holds an envelope, it
creates a fresh empty vault, encrypts it with the supplied passphrase,
unconditionally overwrites the stored envelope and reports success,
moving the session to unlocked. -/
theorem setupVault_overwrites (s : Session) (st : Storage) (env : Env)
    (pw : String) (e : Envelope) (_h : st.vault = some e) :
    (setupVault s st env pw).2.2
      = Response.okSecurity
          (if s.argon2Loaded then "argon2id" else "enhanced-pbkdf2") ∧
    (setupVault s st env pw).2.1.vault
      = some (encryptData s.argon2Loaded env.argon2Works s.argon2Params
          ⟨[], env.now, "2.0",
            some (if s.argon2Loaded then "argon2id" else "enhanced-pbkdf2")⟩
          pw env.rng).1 ∧
    (setupVault s st env pw).1.isUnlocked = true := by
  refine ⟨rfl, rfl, ?_⟩
  simp [setupVault, startAutoLockTimer_isUnlocked]

/-- C3 amended witness at the concrete storage already holding an
envelope. -/
theorem setupVault_overwrites_witness :
    (setupVault {} sampleStorage {} "newpw").2.2
      = Response.okSecurity
          (if (({} : Session)).argon2Loaded then "argon2id" else "enhanced-pbkdf2") ∧
    (setupVault {} sampleStorage {} "newpw").2.1.vault
      = some (encryptData (({} : Session)).argon2Loaded (({} : Env)).argon2Works
          (({} : Session)).argon2Params
          ⟨[], (({} : Env)).now, "2.0",
            some (if (({} : Session)).argon2Loaded then "argon2id" else "enhanced-pbkdf2")⟩
          "newpw" (({} : Env)).rng).1 ∧
    (setupVault {} sampleStorage {} "newpw").1.isUnlocked = true :=
  setupVault_overwrites {} sampleStorage {} "newpw" sampleEnvelope rfl

/-- The stored credential before the C8 update. -/
def origCred : Credential :=
  { id := some "a", name := some "Gmail", domain := some "gmail.com",
    username := some "u", password := some "x",
    created := some 100, modified := some 100 }

/-- The C8 update request: only `id` and a new `password` supplied. -/
def updCred : Credential := { id := some "a", password := some "y" }

/-- A vault holding only `origCred`. -/
def vaultWithOrig : VaultData := ⟨[origCred], 50, "2.0", some "enhanced-pbkdf2"⟩

/-- An unlocked session holding `vaultWithOrig`. -/
def unlockedSession : Session :=
  { vault := some vaultWithOrig, isUnlocked := true, masterPassword := some "pw" }

/-- C8 counterexample: updating the stored credential with an object
supplying only `id` and `password` succeeds but replaces the credential
wholesale — the resulting credential has lost `name` and `created`
instead of keeping them, so `updateCredential` does not merge. -/
theorem updateCredential_not_merge_cex :
    origCred.name = some "Gmail" ∧ origCred.created = some 100 ∧
    (updateCredential unlockedSession {} { now := 200 } updCred).2.2
      = Response.ok ∧
    (updateCredential unlockedSession {} { now := 200 } updCred).1.vault
      = some ⟨[{ id := some "a", password := some "y", modified := some 200 }],
          50, "2.0", some "enhanced-pbkdf2"⟩ ∧
    (updateCredential unlockedSession {} { now := 200 } updCred).1.vault
      ≠ some ⟨[{ origCred with password := some "y", modified := some 200 }],
          50, "2.0", some "enhanced-pbkdf2"⟩ := by
  refine ⟨rfl, rfl, rfl, ?_, ?_⟩ <;> decide

/-- C8 amended: for every unlocked vault and credential id present in
it, `updateCredential` replaces the stored credential wholesale with the
supplied object, stamping `modified` with the current time; fields the
caller leaves absent are absent in the result (in particular `created`
is whatever the caller supplies) — it behaves as a merge only when the
caller sends the full credential.  The updated vault is re-encrypted and
persisted. -/
theorem updateCredential_replaces (s : Session) (st : Storage) (env : Env)
    (c : Credential) (v : VaultData) (i : Nat)
    (hu : s.isUnlocked = true) (hv : s.vault = some v)
    (hi : v.credentials.findIdx? (fun cred => cred.id == c.id) = some i) :
    (updateCredential s st env c).2.2 = Response.ok ∧
    (updateCredential s st env c).1.vault
      = some { v with credentials :=
          v.credentials.set i { c with modified := some env.now } } ∧
    (updateCredential s st env c).2.1.vault
      = some (encryptData s.argon2Loaded env.argon2Works s.argon2Params
          { v with credentials :=
            v.credentials.set i { c with modified := some env.now } }
          (jsStr s.masterPassword) env.rng).1 := by
  simp [updateCredential, hu, hv, hi]

/-- C8 amended witness at the concrete unlocked session. -/
theorem updateCredential_replaces_witness :
    (updateCredential unlockedSession {} { now := 200 } updCred).2.2
      = Response.ok ∧
    (updateCredential unlockedSession {} { now := 200 } updCred).1.vault
      = some { vaultWithOrig with credentials :=
          vaultWithOrig.credentials.set 0 { updCred with modified := some 200 } } ∧
    (updateCredential unlockedSession {} { now := 200 } updCred).2.1.vault
      = some (encryptData unlockedSession.argon2Loaded
          (({ now := 200 } : Env)).argon2Works unlockedSession.argon2Params
          { vaultWithOrig with credentials :=
            vaultWithOrig.credentials.set 0 { updCred with modified := some 200 } }
          (jsStr unlockedSession.masterPassword) (({ now := 200 } : Env)).rng).1 :=
  updateCredential_replaces unlockedSession {} { now := 200 } updCred
    vaultWithOrig 0 rfl rfl (by decide)

/-- C9: in an unlocked session, `getCredentials(d)` returns exactly the
credentials matching the three-way OR — exact domain equality, or the
URL containing d as a substring, or the name containing d
case-insensitively — and nothing else. -/
theorem getCredentials_three_way_or (s : Session) (v : VaultData)
    (d : String) (c : Credential)
    (hu : s.isUnlocked = true) (hv : s.vault = some v) :
    c ∈ (getCredentials s d).credList ↔
      c ∈ v.credentials ∧
        (c.domain = some d ∨
          (strTruthy c.url = true ∧ jsIncludes (jsStr c.url) d = true) ∨
          (strTruthy c.name = true ∧
            jsIncludes (jsToLowerCase (jsStr c.name)) (jsToLowerCase d) = true)) := by
  simp [getCredentials, hu, hv, Response.credList, mem_sortDesc,
    List.mem_filter, domainMatch]
  tauto

/-- C9 witness: searching "gmail.com" in a vault holding an exact-domain
entry and a mail.google.com entry returns exactly the matching
credential. -/
theorem getCredentials_three_way_or_witness :
    (origCred ∈ (getCredentials unlockedSession "gmail.com").credList ↔
      origCred ∈ vaultWithOrig.credentials ∧
        (origCred.domain = some "gmail.com" ∨
          (strTruthy origCred.url = true ∧
            jsIncludes (jsStr origCred.url) "gmail.com" = true) ∨
          (strTruthy origCred.name = true ∧
            jsIncludes (jsToLowerCase (jsStr origCred.name))
              (jsToLowerCase "gmail.com") = true))) :=
  getCredentials_three_way_or unlockedSession vaultWithOrig "gmail.com"
    origCred rfl rfl

/-- C10: session coherence — at construction and after every message
handler, the session reports unlocked exactly when it holds both a
decrypted vault and the master password: no handler leaves secrets in
memory while reporting locked, and none reports unlocked without holding
both. -/
theorem session_coherence (m : Msg) (s : Session) (st : Storage) (env : Env)
    (b : Bool) (h : coherent s) :
    coherent (initialSession st b) ∧ coherent (handleMessage m s st env).1 := by
  constructor
  · simp [coherent, initialSession]
  · cases m with
    | setupVault pw =>
      simp [handleMessage, setupVault, coherent, startAutoLockTimer_vault,
        startAutoLockTimer_isUnlocked, startAutoLockTimer_masterPassword]
    | unlockVault pw =>
      simp only [handleMessage, unlockVault]
      cases hsv : st.vault with
      | none => simpa using h
      | some e =>
        cases hdec : decryptVault s.argon2Loaded e pw with
        | none => simp only [hdec]; simpa using h
        | some vd =>
          simp [hdec, coherent, startAutoLockTimer_vault,
            startAutoLockTimer_isUnlocked, startAutoLockTimer_masterPassword]
    | lockVault => simp [handleMessage, lockVault, coherent]
    | getStatus => simpa [handleMessage] using h
    | saveCredential c =>
      simp only [handleMessage, saveCredential]
      cases hu : s.isUnlocked with
      | false => cases hv : s.vault <;> simpa using h
      | true =>
        cases hv : s.vault with
        | none => simpa using h
        | some v =>
          have hmp : s.masterPassword ≠ none :=
            (h.mp hu).2
          simp [coherent, hu, hmp]
    | getCredentials d => simpa [handleMessage] using h
    | deleteCredential cid =>
      simp only [handleMessage, deleteCredential]
      cases hu : s.isUnlocked with
      | false => cases hv : s.vault <;> simpa using h
      | true =>
        cases hv : s.vault with
        | none => simpa using h
        | some v =>
          have hmp : s.masterPassword ≠ none := (h.mp hu).2
          cases hidx : v.credentials.findIdx? (fun cred => cred.id == some cid) with
          | none => simp only [hidx]; simpa using h
          | some i => simp [coherent, hu, hmp, hidx]
    | updateCredential c =>
      simp only [handleMessage, updateCredential]
      cases hu : s.isUnlocked with
      | false => cases hv : s.vault <;> simpa using h
      | true =>
        cases hv : s.vault with
        | none => simpa using h
        | some v =>
          have hmp : s.masterPassword ≠ none := (h.mp hu).2
          cases hidx : v.credentials.findIdx? (fun cred => cred.id == c.id) with
          | none => simp only [hidx]; simpa using h
          | some i => simp [coherent, hu, hmp, hidx]
    | generatePassword len symbols => simpa [handleMessage] using h
    | updateAutoLock d =>
      simp only [handleMessage, updateAutoLock]
      unfold coherent at h ⊢
      cases hu : s.isUnlocked <;>
        simp [hu, startAutoLockTimer_vault, startAutoLockTimer_isUnlocked,
          startAutoLockTimer_masterPassword] <;>
        rw [hu] at h <;> simpa using h
    | getRemainingTime => simpa [handleMessage] using h
    | openPopup => simpa [handleMessage] using h
    | getAllCredentials => simpa [handleMessage] using h
    | searchCredentials q => simpa [handleMessage] using h
    | getSecurityStatus => simpa [handleMessage] using h
    | unknown t => simpa [handleMessage] using h

/-- C10 witness at the freshly constructed session handling a lock
request. -/
theorem session_coherence_witness :
    coherent (initialSession {} false) ∧
    coherent (handleMessage .lockVault {} {} {}).1 :=
  session_coherence .lockVault {} {} {} false (by decide)

end Lockdown
